import Mathlib

/-!
Verification development for a Nuxt application module that lazily loads the
Firebase SDK (src/unnamed/part_000) and persists small pieces of state in
IndexedDB (src/composables/indexedDB.ts).

The IndexedDB helpers and the provider/credential factories are pure over
their inputs, so they are embedded as Lean functions.  The deferred-module
loader is stateful and event-driven, so it is embedded as a small-step
machine over an explicit state record, with the event loop modelled as a
FIFO task queue (section "Deferred module loader machine" below).
-/

/-! ### String containment (JS String.prototype.includes) -/

/-- Checks that the pattern is an initial segment of the character list. -/
def charsStartWith : List Char → List Char → Bool
  | _, [] => true
  | [], _ :: _ => false
  | c :: cs, p :: ps => c = p && charsStartWith cs ps

/-- Checks that the pattern occurs contiguously somewhere in the list. -/
def charsContain : List Char → List Char → Bool
  | [], pat => pat.isEmpty
  | s@(_ :: cs), pat => charsStartWith s pat || charsContain cs pat

/-- JS `s.includes(pat)`: substring containment on strings. -/
def strIncludes (s pat : String) : Bool :=
  charsContain s.data pat.data

/-! ### src/composables/indexedDB.ts -/

/-- One record collection of an IndexedDB database, as a list of
key/value pairs.  The userInfo object store of userLocalStorageDb maps
string keys to numbers; this code only ever touches the key "karma".
Numbers are modelled as integers (the spec calls the karma value an
integer). -/
def ObjectStore := List (String × Int)

/-- IDB `put(storeName, value, key)` restricted to one store: upsert of
the value under the key. -/
def storePut (st : ObjectStore) (v : Int) (key : String) : ObjectStore :=
  (key, v) :: st.filter (fun e => e.1 != key)

/-- IDB `get(storeName, key)` restricted to one store. -/
def storeGet (st : ObjectStore) (key : String) : Option Int :=
  (st.find? (fun e => e.1 == key)).map (fun e => e.2)

/-- The userInfo object store as created by the upgrade callback of
`getUserDB` (`db.createObjectStore("userInfo")`): empty. -/
def emptyUserInfo : ObjectStore := []

/-- `storeKarma` (indexedDB.ts line 104): writes the karma number under
the fixed key "karma" in the userInfo store. -/
def storeKarma (st : ObjectStore) (karma : Int) : ObjectStore :=
  storePut st karma "karma"

/-- `readKarma` (indexedDB.ts line 109): reads the key "karma" and
returns `karma || 0`, i.e. 0 when the record is absent and 0 when the
stored number is itself falsy (0). -/
def readKarma (st : ObjectStore) : Int :=
  match storeGet st "karma" with
  | none => 0
  | some karma => if karma == 0 then 0 else karma

/-- Return type of `readCreds` (indexedDB.ts lines 7-10). -/
structure ReadCreds where
  token : String
  uid : String
deriving DecidableEq

/-- The `stsTokenManager` field of a firebaseLocalStorage record value. -/
structure StsTokenManager where
  accessToken : String
deriving DecidableEq

/-- The `value` field of a firebaseLocalStorage record. -/
structure FbRowValue where
  uid : String
  stsTokenManager : StsTokenManager
deriving DecidableEq

/-- One record of the firebaseLocalStorage object store, as read by
`store.getAll()`: a `fbase_key` string and a nested value. -/
structure FbRow where
  fbase_key : String
  value : FbRowValue
deriving DecidableEq

/-- `readCreds` (indexedDB.ts lines 73-101), over the record list that
`getAll()` returns from the firebaseLocalStorage object store: filter to
rows whose `fbase_key` contains "firebase:authUser"; with no match return
empty token and uid; otherwise return the first matching row's
`value.stsTokenManager.accessToken` and `value.uid`. -/
def readCreds (allRows : List FbRow) : ReadCreds :=
  let filteredRows := allRows.filter (fun obj => strIncludes obj.fbase_key "firebase:authUser")
  match filteredRows with
  | [] => { token := "", uid := "" }
  | row :: _ => { token := row.value.stsTokenManager.accessToken, uid := row.value.uid }

/-! ### Provider and credential factories (part_000 lines 157-181) -/

/-- The three provider constructors the auth module exposes; a value of
this type identifies which constructor produced an instance. -/
inductive AuthProviderInst where
  | google
  | facebook
  | github
deriving DecidableEq

/-- An OAuth credential as produced by `Provider.credential(accessToken)`:
it carries the provider it came from and the access token. -/
structure OAuthCredentialV where
  providerOf : AuthProviderInst
  accessToken : String
deriving DecidableEq

/-- `getProvider` (part_000 lines 157-165): switch over the provider
name; the default branch throws an unknown-provider error, which rejects
the enclosing async call, modelled as `Except.error`. -/
def getProvider (provider : String) : Except String AuthProviderInst :=
  match provider with
  | "google" => Except.ok AuthProviderInst.google
  | "facebook" => Except.ok AuthProviderInst.facebook
  | "github" => Except.ok AuthProviderInst.github
  | _ => Except.error ("Unknown provider " ++ provider)

/-- `getCredential` (part_000 lines 173-181): switch over the provider
name, building the corresponding credential from the access token; the
default branch throws the same unknown-provider error. -/
def getCredential (provider : String) (accessToken : String) : Except String OAuthCredentialV :=
  match provider with
  | "google" => Except.ok { providerOf := AuthProviderInst.google, accessToken := accessToken }
  | "facebook" => Except.ok { providerOf := AuthProviderInst.facebook, accessToken := accessToken }
  | "github" => Except.ok { providerOf := AuthProviderInst.github, accessToken := accessToken }
  | _ => Except.error ("Unknown provider " ++ provider)

/-! ### analyticsLogger (part_000 lines 243-252) -/

/-- Possible behaviours of the analytics load / log attempt, supplied by
the environment: the dynamic load rejects, `logEvent` throws, or both
succeed. -/
inductive AnalyticsOutcome where
  | loadFails
  | logEventThrows
  | success
deriving DecidableEq

/-- Observable outcome of one `analyticsLogger` call: how many calls were
made into the analytics module (`getAnalytics` and `logEvent`), how many
diagnostics went to the local console sink, and what error, if any,
propagated to the caller. -/
structure AnalyticsLoggerRun where
  analyticsCalls : Nat
  consoleLogs : Nat
  thrownToCaller : Option String
deriving DecidableEq

/-- `analyticsLogger` (part_000 lines 243-252): returns immediately when
`process.env.NODE_ENV` is not "production"; otherwise loads the analytics
module and calls `getAnalytics` and `logEvent`; any rejection of the load
or throw inside the `.then` callback is caught by `.catch`, logged to the
console, and discarded. -/
def analyticsLogger (nodeEnv : String) (outcome : AnalyticsOutcome)
    (logType : String) : AnalyticsLoggerRun :=
  if nodeEnv != "production" then
    { analyticsCalls := 0, consoleLogs := 0, thrownToCaller := none }
  else
    match outcome with
    | AnalyticsOutcome.loadFails =>
        { analyticsCalls := 0, consoleLogs := 1, thrownToCaller := none }
    | AnalyticsOutcome.logEventThrows =>
        { analyticsCalls := 2, consoleLogs := 1, thrownToCaller := none }
    | AnalyticsOutcome.success =>
        let _ := logType
        { analyticsCalls := 2, consoleLogs := 0, thrownToCaller := none }

/-! ### getUserToken (part_000 lines 213-221) -/

/-- The slice of the Pinia user store that `getUserToken` reads: the
authenticated flag and the cached token. -/
structure UserStoreState where
  authenticatedState : Bool
  userToken : String
deriving DecidableEq

/-- Observable outcome of one `getUserToken` call: whether a fresh id
token was requested from the current user, and the returned string. -/
structure GetUserTokenRun where
  fetchedIdToken : Bool
  result : String
deriving DecidableEq

/-- `getUserToken` (part_000 lines 213-221): when the store reports the
user authenticated, it awaits `getAuth()?.currentUser?.getIdToken()` (the
optional chain fetches only when a current user exists) and discards the
result; in both branches it returns the cached `userStore.getUserToken`.
The `currentUserToken` argument is the fresh token the provider would
hand back, `none` when no current user exists. -/
def getUserToken (userStore : UserStoreState) (currentUserToken : Option String) :
    GetUserTokenRun :=
  if userStore.authenticatedState then
    { fetchedIdToken := currentUserToken.isSome, result := userStore.userToken }
  else
    { fetchedIdToken := false, result := userStore.userToken }

/-! ### Deferred module loader machine (part_000 lines 21-206)

The loader is event-driven JavaScript on a single-threaded event loop.
It is embedded as a deterministic small-step machine: external API calls
run their synchronous prefix at once and enqueue continuation tasks; a
tick action pops the first task and executes it.  A task awaiting a
promise that has not resolved re-enqueues itself, so scheduling is fair.

The EventBus used by initializeApp and loadFirebaseAnalytics is not part
of this repository.  Modelled from the spec: the missing EventBus
exposes named signals observed by a once-only or a persistent listener;
the third argument true of the on-call in initializeApp registers a
once-only listener, the on-call without it in loadFirebaseAnalytics
registers a persistent listener, and an emit invokes every currently
registered listener of the named signal.  Module loading is modelled by
counting dynamic-import invocations; the import completes at a later
task step.  Promises firebaseApp, authModule and analyticsModule are
identified by numbers drawn from a counter, so that slot replacement
would be observable. -/

/-- Continuation to dispatch once the auth-module promise has resolved:
a plain getAuthModule-style caller that records the module handle, the
direct branch of getCurrentUser (userLoaded already true), or the
subscribing branch of getCurrentUser. -/
inductive AuthCont where
  | plainCall (id : Nat)
  | gcuDirect (id : Nat)
  | gcuSub (id : Nat)
deriving DecidableEq

/-- Pending continuations of the event loop. -/
inductive LoaderTask where
  | runFirebaseHandler
  | finishAppImport
  | runAnalyticsHandler
  | analyticsAwaitApp (sawNullApp : Bool)
  | finishAnalyticsImport
  | gamAwaitApp (k : AuthCont)
  | lfaAwaitApp
  | finishAuthImport
  | awaitAuthModule (k : AuthCont)
deriving DecidableEq

/-- Process-wide state of part_000: the three dataPromises slots with
their resolution flags, the EventBus listener registrations, counters of
dynamic-import invocations, the userLoaded flag, the auth-state
subscription bookkeeping of getCurrentUser, the task queue, and result
logs for completed calls.  sawNullAppAwait is a ghost flag recording
that some analytics handler run observed the firebaseApp slot unset and
therefore awaited null. -/
structure LoaderState where
  firebaseApp : Option Nat
  authModule : Option Nat
  analyticsModule : Option Nat
  appResolved : Bool
  authResolved : Bool
  analyticsResolved : Bool
  appListeners : Nat
  analyticsListeners : Nat
  appImportCount : Nat
  authImportCount : Nat
  analyticsImportCount : Nat
  sawNullAppAwait : Bool
  tasks : List LoaderTask
  userLoaded : Bool
  subCount : Nat
  activeSub : Option Nat
  currentUser : Option Nat
  authHandle : Nat
  nextProm : Nat
  nextCall : Nat
  gamResults : List (Nat × Nat)
  gcuResults : List (Nat × Option Nat)
deriving DecidableEq

/-- Initial state at module evaluation: all slots null, no listeners,
no imports, userLoaded false, empty task queue. -/
def initState : LoaderState :=
  { firebaseApp := none, authModule := none, analyticsModule := none,
    appResolved := false, authResolved := false, analyticsResolved := false,
    appListeners := 0, analyticsListeners := 0,
    appImportCount := 0, authImportCount := 0, analyticsImportCount := 0,
    sawNullAppAwait := false, tasks := [],
    userLoaded := false, subCount := 0, activeSub := none, currentUser := none,
    authHandle := 0, nextProm := 0, nextCall := 0,
    gamResults := [], gcuResults := [] }

/-- Appends one task at the back of the queue. -/
def enqueue (s : LoaderState) (t : LoaderTask) : LoaderState :=
  { s with tasks := s.tasks ++ [t] }

/-- Emit of the resolveFirebase signal: every registered once-only
listener fires (its handler body becomes a task) and is removed. -/
def emitResolveFirebase (s : LoaderState) : LoaderState :=
  { s with tasks := s.tasks ++ List.replicate s.appListeners LoaderTask.runFirebaseHandler,
           appListeners := 0 }

/-- Emit of the resolveAnalytics signal: every registered persistent
listener fires and stays registered. -/
def emitResolveAnalytics (s : LoaderState) : LoaderState :=
  { s with tasks := s.tasks ++ List.replicate s.analyticsListeners LoaderTask.runAnalyticsHandler }

/-- The creation step of initializeApp (part_000 lines 32-53): allocate
the pending firebaseApp promise and register the once-only listener on
resolveFirebase.  The import itself happens only when the listener
fires. -/
def initializeAppCreate (s : LoaderState) : LoaderState :=
  { s with firebaseApp := some s.nextProm, nextProm := s.nextProm + 1,
           appListeners := s.appListeners + 1 }

/-- makeFirebaseActive (part_000 lines 60-63): create the firebaseApp
promise when the slot is null, then emit resolveFirebase. -/
def makeFirebaseActive (s : LoaderState) : LoaderState :=
  emitResolveFirebase (match s.firebaseApp with
    | none => initializeAppCreate s
    | some _ => s)

/-- The creation step of loadFirebaseAnalytics (part_000 lines 81-92):
allocate the pending analyticsModule promise and register the persistent
listener on resolveAnalytics. -/
def loadFirebaseAnalyticsCreate (s : LoaderState) : LoaderState :=
  { s with analyticsModule := some s.nextProm, nextProm := s.nextProm + 1,
           analyticsListeners := s.analyticsListeners + 1 }

/-- makeAnalyticsActive (part_000 lines 99-102): create the
analyticsModule promise when the slot is null, then emit
resolveAnalytics. -/
def makeAnalyticsActive (s : LoaderState) : LoaderState :=
  emitResolveAnalytics (match s.analyticsModule with
    | none => loadFirebaseAnalyticsCreate s
    | some _ => s)

/-- Lines 114-119 of getAuthModule, reached with the firebaseApp promise
known to exist and resolved: when the authModule slot is set, the caller
awaits that promise; otherwise the slot is filled with
loadFirebaseAuth() - whose synchronous prefix suspends awaiting the
firebaseApp promise - and the recursive call then awaits the new
promise. -/
def gamPhase2 (k : AuthCont) (s : LoaderState) : LoaderState :=
  match s.authModule with
  | some _ => enqueue s (LoaderTask.awaitAuthModule k)
  | none =>
      let s1 := { s with authModule := some s.nextProm, nextProm := s.nextProm + 1 }
      enqueue (enqueue s1 LoaderTask.lfaAwaitApp) (LoaderTask.awaitAuthModule k)

/-- Synchronous prefix of getAuthModule (part_000 lines 108-120): when
the firebaseApp slot is null, fill it via initializeApp (which registers
the listener but emits nothing) and suspend awaiting it; otherwise
continue at line 114. -/
def startGetAuthModule (k : AuthCont) (s : LoaderState) : LoaderState :=
  match s.firebaseApp with
  | none => enqueue (initializeAppCreate s) (LoaderTask.gamAwaitApp k)
  | some _ => gamPhase2 k s

/-- Executes one dequeued task. -/
def runTask (t : LoaderTask) (s : LoaderState) : LoaderState :=
  match t with
  | LoaderTask.runFirebaseHandler =>
      enqueue { s with appImportCount := s.appImportCount + 1 } LoaderTask.finishAppImport
  | LoaderTask.finishAppImport => { s with appResolved := true }
  | LoaderTask.runAnalyticsHandler =>
      match s.firebaseApp with
      | none => enqueue { s with sawNullAppAwait := true } (LoaderTask.analyticsAwaitApp true)
      | some _ => enqueue s (LoaderTask.analyticsAwaitApp false)
  | LoaderTask.analyticsAwaitApp b =>
      if b || s.appResolved then
        enqueue { s with analyticsImportCount := s.analyticsImportCount + 1 }
          LoaderTask.finishAnalyticsImport
      else enqueue s (LoaderTask.analyticsAwaitApp b)
  | LoaderTask.finishAnalyticsImport => { s with analyticsResolved := true }
  | LoaderTask.gamAwaitApp k =>
      if s.appResolved then gamPhase2 k s else enqueue s (LoaderTask.gamAwaitApp k)
  | LoaderTask.lfaAwaitApp =>
      if s.appResolved then
        enqueue { s with authImportCount := s.authImportCount + 1 } LoaderTask.finishAuthImport
      else enqueue s LoaderTask.lfaAwaitApp
  | LoaderTask.finishAuthImport =>
      { s with authResolved := true, authHandle := s.authImportCount }
  | LoaderTask.awaitAuthModule k =>
      if s.authResolved then
        match k with
        | AuthCont.plainCall id => { s with gamResults := s.gamResults ++ [(id, s.authHandle)] }
        | AuthCont.gcuDirect id => { s with gcuResults := s.gcuResults ++ [(id, s.currentUser)] }
        | AuthCont.gcuSub id => { s with subCount := s.subCount + 1, activeSub := some id }
      else enqueue s (LoaderTask.awaitAuthModule k)

/-- External actions of the machine: the two activation functions, a
getAuthModule-style consumer call, a getCurrentUser call, the provider
delivering an auth-state value to the SDK (which fires the registered
onAuthStateChanged listener, if any), and one scheduler step. -/
inductive LoaderAct where
  | makeFirebaseActiveA
  | makeAnalyticsActiveA
  | getAuthModuleCall
  | getCurrentUserCall
  | deliverAuthState (u : Option Nat)
  | tick
deriving DecidableEq

/-- One external step.  getCurrentUser (part_000 lines 190-206) branches
on userLoaded: when set, it resolves with currentUser after getAuth;
otherwise it subscribes via onAuthStateChanged.  deliverAuthState
updates the current user held by the SDK and, when a subscription from
getCurrentUser is active, runs its callback: set userLoaded, unsubscribe,
resolve the pending call with the delivered user. -/
def doAct (a : LoaderAct) (s : LoaderState) : LoaderState :=
  match a with
  | LoaderAct.makeFirebaseActiveA => makeFirebaseActive s
  | LoaderAct.makeAnalyticsActiveA => makeAnalyticsActive s
  | LoaderAct.getAuthModuleCall =>
      startGetAuthModule (AuthCont.plainCall s.nextCall) { s with nextCall := s.nextCall + 1 }
  | LoaderAct.getCurrentUserCall =>
      if s.userLoaded then
        startGetAuthModule (AuthCont.gcuDirect s.nextCall) { s with nextCall := s.nextCall + 1 }
      else
        startGetAuthModule (AuthCont.gcuSub s.nextCall) { s with nextCall := s.nextCall + 1 }
  | LoaderAct.deliverAuthState u =>
      match s.activeSub with
      | some id =>
          { s with currentUser := u, userLoaded := true, activeSub := none,
                   gcuResults := s.gcuResults ++ [(id, u)] }
      | none => { s with currentUser := u }
  | LoaderAct.tick =>
      match s.tasks with
      | [] => s
      | t :: rest => runTask t { s with tasks := rest }

/-- Runs a list of actions from a given state. -/
def runFrom (s : LoaderState) (acts : List LoaderAct) : LoaderState :=
  acts.foldl (fun st a => doAct a st) s

/-- Runs a list of actions from the initial state. -/
def runActs (acts : List LoaderAct) : LoaderState :=
  runFrom initState acts

/-! ### Monotonicity of the loader state -/

/-- Monotonicity relation between two loader states: every dataPromises
slot that is set stays set with the same promise identity, and the
userLoaded, appResolved and sawNullAppAwait flags never flip back to
false. -/
def LoaderMono (s t : LoaderState) : Prop :=
  (∀ p, s.firebaseApp = some p → t.firebaseApp = some p) ∧
  (∀ p, s.authModule = some p → t.authModule = some p) ∧
  (∀ p, s.analyticsModule = some p → t.analyticsModule = some p) ∧
  (s.userLoaded = true → t.userLoaded = true) ∧
  (s.appResolved = true → t.appResolved = true) ∧
  (s.sawNullAppAwait = true → t.sawNullAppAwait = true)

theorem loaderMono_refl (s : LoaderState) : LoaderMono s s :=
  ⟨fun _ h => h, fun _ h => h, fun _ h => h, fun h => h, fun h => h, fun h => h⟩

theorem loaderMono_trans {s t u : LoaderState} (h1 : LoaderMono s t) (h2 : LoaderMono t u) :
    LoaderMono s u := by
  obtain ⟨a1, b1, c1, d1, e1, f1⟩ := h1
  obtain ⟨a2, b2, c2, d2, e2, f2⟩ := h2
  exact ⟨fun p h => a2 p (a1 p h), fun p h => b2 p (b1 p h), fun p h => c2 p (c1 p h),
         fun h => d2 (d1 h), fun h => e2 (e1 h), fun h => f2 (f1 h)⟩

theorem loaderMono_of_eq {s t : LoaderState}
    (h1 : t.firebaseApp = s.firebaseApp) (h2 : t.authModule = s.authModule)
    (h3 : t.analyticsModule = s.analyticsModule) (h4 : t.userLoaded = s.userLoaded)
    (h5 : t.appResolved = s.appResolved) (h6 : t.sawNullAppAwait = s.sawNullAppAwait) :
    LoaderMono s t := by
  refine ⟨?_, ?_, ?_, ?_, ?_, ?_⟩ <;> intro _ <;> simp_all

theorem loaderMono_initializeAppCreate {s : LoaderState} (h : s.firebaseApp = none) :
    LoaderMono s (initializeAppCreate s) := by
  refine ⟨?_, ?_, ?_, ?_, ?_, ?_⟩ <;> intro _ <;> simp_all [initializeAppCreate]

theorem loaderMono_loadFirebaseAnalyticsCreate {s : LoaderState} (h : s.analyticsModule = none) :
    LoaderMono s (loadFirebaseAnalyticsCreate s) := by
  refine ⟨?_, ?_, ?_, ?_, ?_, ?_⟩ <;> intro _ <;> simp_all [loadFirebaseAnalyticsCreate]

theorem loaderMono_emitResolveFirebase (s : LoaderState) : LoaderMono s (emitResolveFirebase s) :=
  loaderMono_of_eq rfl rfl rfl rfl rfl rfl

theorem loaderMono_emitResolveAnalytics (s : LoaderState) : LoaderMono s (emitResolveAnalytics s) :=
  loaderMono_of_eq rfl rfl rfl rfl rfl rfl

theorem loaderMono_enqueue (s : LoaderState) (t : LoaderTask) : LoaderMono s (enqueue s t) :=
  loaderMono_of_eq rfl rfl rfl rfl rfl rfl

theorem loaderMono_makeFirebaseActive (s : LoaderState) : LoaderMono s (makeFirebaseActive s) := by
  unfold makeFirebaseActive
  cases h : s.firebaseApp with
  | none =>
      exact loaderMono_trans (loaderMono_initializeAppCreate h)
        (loaderMono_emitResolveFirebase (initializeAppCreate s))
  | some p => exact loaderMono_emitResolveFirebase s

theorem loaderMono_makeAnalyticsActive (s : LoaderState) : LoaderMono s (makeAnalyticsActive s) := by
  unfold makeAnalyticsActive
  cases h : s.analyticsModule with
  | none =>
      exact loaderMono_trans (loaderMono_loadFirebaseAnalyticsCreate h)
        (loaderMono_emitResolveAnalytics (loadFirebaseAnalyticsCreate s))
  | some p => exact loaderMono_emitResolveAnalytics s

theorem loaderMono_gamPhase2 (k : AuthCont) (s : LoaderState) : LoaderMono s (gamPhase2 k s) := by
  unfold gamPhase2
  cases h : s.authModule with
  | none => refine ⟨?_, ?_, ?_, ?_, ?_, ?_⟩ <;> intro _ <;> simp_all [enqueue]
  | some p => exact loaderMono_enqueue s _

theorem loaderMono_startGetAuthModule (k : AuthCont) (s : LoaderState) :
    LoaderMono s (startGetAuthModule k s) := by
  unfold startGetAuthModule
  cases h : s.firebaseApp with
  | none => exact loaderMono_trans (loaderMono_initializeAppCreate h) (loaderMono_enqueue _ _)
  | some p => exact loaderMono_gamPhase2 k s

theorem loaderMono_runTask (t : LoaderTask) (s : LoaderState) : LoaderMono s (runTask t s) := by
  cases t with
  | runFirebaseHandler => exact loaderMono_of_eq rfl rfl rfl rfl rfl rfl
  | finishAppImport =>
      exact ⟨fun _ h => h, fun _ h => h, fun _ h => h, fun h => h, fun _ => rfl, fun h => h⟩
  | runAnalyticsHandler =>
      show LoaderMono s (match s.firebaseApp with
        | none => enqueue { s with sawNullAppAwait := true } (LoaderTask.analyticsAwaitApp true)
        | some _ => enqueue s (LoaderTask.analyticsAwaitApp false))
      cases h : s.firebaseApp with
      | none =>
          refine ⟨?_, ?_, ?_, ?_, ?_, ?_⟩ <;> intro _ <;> simp_all [enqueue]
      | some p => exact loaderMono_enqueue s _
  | analyticsAwaitApp b =>
      show LoaderMono s (if b || s.appResolved then _ else _)
      split
      · exact loaderMono_of_eq rfl rfl rfl rfl rfl rfl
      · exact loaderMono_enqueue s _
  | finishAnalyticsImport => exact loaderMono_of_eq rfl rfl rfl rfl rfl rfl
  | gamAwaitApp k =>
      show LoaderMono s (if s.appResolved then gamPhase2 k s else _)
      split
      · exact loaderMono_gamPhase2 k s
      · exact loaderMono_enqueue s _
  | lfaAwaitApp =>
      show LoaderMono s (if s.appResolved then _ else _)
      split
      · exact loaderMono_of_eq rfl rfl rfl rfl rfl rfl
      · exact loaderMono_enqueue s _
  | finishAuthImport => exact loaderMono_of_eq rfl rfl rfl rfl rfl rfl
  | awaitAuthModule k =>
      show LoaderMono s (if s.authResolved then _ else _)
      split
      · cases k <;> exact loaderMono_of_eq rfl rfl rfl rfl rfl rfl
      · exact loaderMono_enqueue s _

theorem loaderMono_doAct (a : LoaderAct) (s : LoaderState) : LoaderMono s (doAct a s) := by
  cases a with
  | makeFirebaseActiveA => exact loaderMono_makeFirebaseActive s
  | makeAnalyticsActiveA => exact loaderMono_makeAnalyticsActive s
  | getAuthModuleCall =>
      exact loaderMono_trans (loaderMono_of_eq rfl rfl rfl rfl rfl rfl)
        (loaderMono_startGetAuthModule (AuthCont.plainCall s.nextCall)
          { s with nextCall := s.nextCall + 1 })
  | getCurrentUserCall =>
      show LoaderMono s (if s.userLoaded then _ else _)
      split
      · exact loaderMono_trans (loaderMono_of_eq rfl rfl rfl rfl rfl rfl)
          (loaderMono_startGetAuthModule (AuthCont.gcuDirect s.nextCall)
            { s with nextCall := s.nextCall + 1 })
      · exact loaderMono_trans (loaderMono_of_eq rfl rfl rfl rfl rfl rfl)
          (loaderMono_startGetAuthModule (AuthCont.gcuSub s.nextCall)
            { s with nextCall := s.nextCall + 1 })
  | deliverAuthState u =>
      show LoaderMono s (match s.activeSub with
        | some id => _
        | none => _)
      cases h : s.activeSub with
      | some id =>
          exact ⟨fun _ h => h, fun _ h => h, fun _ h => h, fun _ => rfl, fun h => h, fun h => h⟩
      | none => exact loaderMono_of_eq rfl rfl rfl rfl rfl rfl
  | tick =>
      show LoaderMono s (match s.tasks with
        | [] => s
        | t :: rest => runTask t { s with tasks := rest })
      cases h : s.tasks with
      | nil => exact loaderMono_refl s
      | cons t rest =>
          exact loaderMono_trans (loaderMono_of_eq rfl rfl rfl rfl rfl rfl)
            (loaderMono_runTask t { s with tasks := rest })

theorem loaderMono_runFrom (acts : List LoaderAct) (s : LoaderState) :
    LoaderMono s (runFrom s acts) := by
  induction acts generalizing s with
  | nil => exact loaderMono_refl s
  | cons a rest ih => exact loaderMono_trans (loaderMono_doAct a s) (ih (doAct a s))

/-! ### Invariant: analytics import start versus app promise resolution -/

/-- No pending task is an analytics await that bypassed a null app slot. -/
def noTrueAwait (l : List LoaderTask) : Prop :=
  LoaderTask.analyticsAwaitApp true ∉ l

theorem noTrueAwait_append {l1 l2 : List LoaderTask}
    (h1 : noTrueAwait l1) (h2 : noTrueAwait l2) : noTrueAwait (l1 ++ l2) := by
  unfold noTrueAwait at h1 h2 ⊢
  simp only [List.mem_append]
  exact fun hx => hx.elim h1 h2

theorem noTrueAwait_single {t : LoaderTask} (h : t ≠ LoaderTask.analyticsAwaitApp true) :
    noTrueAwait [t] := by
  unfold noTrueAwait
  simp only [List.mem_singleton]
  exact fun hx => h hx.symm

theorem noTrueAwait_replicate {n : Nat} {t : LoaderTask}
    (h : t ≠ LoaderTask.analyticsAwaitApp true) : noTrueAwait (List.replicate n t) := by
  unfold noTrueAwait
  intro hx
  exact h (List.eq_of_mem_replicate hx).symm

/-- Invariant tying the analytics import to the app promise: unless some
analytics handler run observed the firebaseApp slot unset (the ghost
flag), every pending analytics await still gates on the app promise, and
an analytics import can only have started once the app promise resolved. -/
def C7Inv (s : LoaderState) : Prop :=
  s.sawNullAppAwait = true ∨
    (noTrueAwait s.tasks ∧ (s.analyticsImportCount = 0 ∨ s.appResolved = true))

theorem c7inv_runTask (t : LoaderTask) (s : LoaderState)
    (hmem : noTrueAwait s.tasks) (htne : t ≠ LoaderTask.analyticsAwaitApp true)
    (hcnt : s.analyticsImportCount = 0 ∨ s.appResolved = true) :
    C7Inv (runTask t s) := by
  cases t with
  | runFirebaseHandler =>
      exact Or.inr ⟨noTrueAwait_append hmem (noTrueAwait_single (by simp)), hcnt⟩
  | finishAppImport => exact Or.inr ⟨hmem, Or.inr rfl⟩
  | runAnalyticsHandler =>
      show C7Inv (match s.firebaseApp with
        | none => enqueue { s with sawNullAppAwait := true } (LoaderTask.analyticsAwaitApp true)
        | some _ => enqueue s (LoaderTask.analyticsAwaitApp false))
      cases hf : s.firebaseApp with
      | none => exact Or.inl rfl
      | some p =>
          exact Or.inr ⟨noTrueAwait_append hmem (noTrueAwait_single (by simp)), hcnt⟩
  | analyticsAwaitApp b =>
      have hb : b = false := by
        cases b
        · rfl
        · exact absurd rfl htne
      subst hb
      simp only [runTask, Bool.false_or]
      split
      next hr =>
        exact Or.inr ⟨noTrueAwait_append hmem (noTrueAwait_single (by simp)), Or.inr hr⟩
      next hr =>
        exact Or.inr ⟨noTrueAwait_append hmem (noTrueAwait_single (by simp)), hcnt⟩
  | finishAnalyticsImport => exact Or.inr ⟨hmem, hcnt⟩
  | gamAwaitApp k =>
      simp only [runTask]
      split
      next hr =>
        unfold gamPhase2
        cases ha : s.authModule with
        | none =>
            exact Or.inr ⟨noTrueAwait_append
              (noTrueAwait_append hmem (noTrueAwait_single (by simp)))
              (noTrueAwait_single (by simp)), hcnt⟩
        | some p =>
            exact Or.inr ⟨noTrueAwait_append hmem (noTrueAwait_single (by simp)), hcnt⟩
      next hr =>
        exact Or.inr ⟨noTrueAwait_append hmem (noTrueAwait_single (by simp)), hcnt⟩
  | lfaAwaitApp =>
      simp only [runTask]
      split
      next hr =>
        exact Or.inr ⟨noTrueAwait_append hmem (noTrueAwait_single (by simp)), hcnt⟩
      next hr =>
        exact Or.inr ⟨noTrueAwait_append hmem (noTrueAwait_single (by simp)), hcnt⟩
  | finishAuthImport => exact Or.inr ⟨hmem, hcnt⟩
  | awaitAuthModule k =>
      simp only [runTask]
      split
      next hr => cases k <;> exact Or.inr ⟨hmem, hcnt⟩
      next hr =>
        exact Or.inr ⟨noTrueAwait_append hmem (noTrueAwait_single (by simp)), hcnt⟩

theorem c7inv_doAct (a : LoaderAct) (s : LoaderState) (h : C7Inv s) : C7Inv (doAct a s) := by
  rcases h with hg | ⟨hmem, hcnt⟩
  · exact Or.inl ((loaderMono_doAct a s).2.2.2.2.2 hg)
  · cases a with
    | makeFirebaseActiveA =>
        unfold doAct makeFirebaseActive emitResolveFirebase
        cases hf : s.firebaseApp with
        | none =>
            exact Or.inr ⟨noTrueAwait_append hmem (noTrueAwait_replicate (by simp)), hcnt⟩
        | some p =>
            exact Or.inr ⟨noTrueAwait_append hmem (noTrueAwait_replicate (by simp)), hcnt⟩
    | makeAnalyticsActiveA =>
        unfold doAct makeAnalyticsActive emitResolveAnalytics
        cases hf : s.analyticsModule with
        | none =>
            exact Or.inr ⟨noTrueAwait_append hmem (noTrueAwait_replicate (by simp)), hcnt⟩
        | some p =>
            exact Or.inr ⟨noTrueAwait_append hmem (noTrueAwait_replicate (by simp)), hcnt⟩
    | getAuthModuleCall =>
        unfold doAct startGetAuthModule
        cases hf : s.firebaseApp with
        | none =>
            exact Or.inr ⟨noTrueAwait_append hmem (noTrueAwait_single (by simp)), hcnt⟩
        | some p =>
            unfold gamPhase2
            cases ha : s.authModule with
            | none =>
                exact Or.inr ⟨noTrueAwait_append
                  (noTrueAwait_append hmem (noTrueAwait_single (by simp)))
                  (noTrueAwait_single (by simp)), hcnt⟩
            | some q =>
                exact Or.inr ⟨noTrueAwait_append hmem (noTrueAwait_single (by simp)), hcnt⟩
    | getCurrentUserCall =>
        unfold doAct
        cases hu : s.userLoaded <;>
          (unfold startGetAuthModule
           cases hf : s.firebaseApp with
           | none =>
               exact Or.inr ⟨noTrueAwait_append hmem (noTrueAwait_single (by simp)), hcnt⟩
           | some p =>
               unfold gamPhase2
               cases ha : s.authModule with
               | none =>
                   exact Or.inr ⟨noTrueAwait_append
                     (noTrueAwait_append hmem (noTrueAwait_single (by simp)))
                     (noTrueAwait_single (by simp)), hcnt⟩
               | some q =>
                   exact Or.inr ⟨noTrueAwait_append hmem (noTrueAwait_single (by simp)), hcnt⟩)
    | deliverAuthState u =>
        unfold doAct
        cases hs : s.activeSub with
        | some id => exact Or.inr ⟨hmem, hcnt⟩
        | none => exact Or.inr ⟨hmem, hcnt⟩
    | tick =>
        unfold doAct
        cases ht : s.tasks with
        | nil => exact Or.inr ⟨hmem, hcnt⟩
        | cons t rest =>
            rw [ht] at hmem
            have hmem2 : noTrueAwait rest := fun hx => hmem (List.mem_cons_of_mem t hx)
            have htne : t ≠ LoaderTask.analyticsAwaitApp true := by
              intro hx
              exact hmem (hx ▸ List.mem_cons_self t rest)
            exact c7inv_runTask t { s with tasks := rest } hmem2 htne hcnt

theorem c7inv_runFrom (acts : List LoaderAct) (s : LoaderState) (h : C7Inv s) :
    C7Inv (runFrom s acts) := by
  induction acts generalizing s with
  | nil => exact h
  | cons a rest ih => exact ih (doAct a s) (c7inv_doAct a s h)

theorem c7inv_runActs (acts : List LoaderAct) : C7Inv (runActs acts) :=
  c7inv_runFrom acts initState
    (Or.inr ⟨fun hx => (List.not_mem_nil _ hx), Or.inl rfl⟩)

/-! ### Helpers for the getCurrentUser claims -/

/-- Tasks whose continuation would create an onAuthStateChanged
subscription when dispatched. -/
def taskSubCont : LoaderTask → Bool
  | LoaderTask.gamAwaitApp (AuthCont.gcuSub _) => true
  | LoaderTask.awaitAuthModule (AuthCont.gcuSub _) => true
  | _ => false

/-- Number of pending tasks that would still create a subscription. -/
def pendingSubConts (s : LoaderState) : Nat :=
  (s.tasks.filter taskSubCont).length

theorem pendingSubConts_enqueue (s : LoaderState) (t : LoaderTask)
    (ht : taskSubCont t = false) : pendingSubConts (enqueue s t) = pendingSubConts s := by
  unfold pendingSubConts enqueue
  simp [List.filter_append, ht]

/-- Canonical two-sequential-getCurrentUser scenario: activate firebase,
let the app import finish, call getCurrentUser, run the auth-module load
to the point where the call subscribes, have the provider deliver the
auth-state value u, then call getCurrentUser a second time and let it
resolve. -/
def gcuTrace (u : Option Nat) : List LoaderAct :=
  [LoaderAct.makeFirebaseActiveA, LoaderAct.tick, LoaderAct.tick,
   LoaderAct.getCurrentUserCall, LoaderAct.tick, LoaderAct.tick, LoaderAct.tick, LoaderAct.tick,
   LoaderAct.deliverAuthState u, LoaderAct.getCurrentUserCall, LoaderAct.tick]

/-! ### Claim theorems -/

/-- C1: readKarma after storeKarma(v), with no intervening storeKarma,
returns v for every number v and every prior store content; and readKarma
on the freshly created (empty) userInfo store returns 0. -/
theorem storeKarma_readKarma_roundtrip (st : ObjectStore) (v : Int) :
    readKarma (storeKarma st v) = v ∧ readKarma emptyUserInfo = 0 := by
  constructor
  · have h1 : storeGet (storeKarma st v) "karma" = some v := by
      unfold storeKarma storePut storeGet
      rw [List.find?_cons_of_pos _ (by simp)]
      rfl
    unfold readKarma
    rw [h1]
    by_cases hv : v = 0
    · subst hv
      simp
    · simp [hv]
  · rfl

/-- C2: readCreds on a store with no record whose key contains the
auth-user marker returns empty token and uid (in particular it returns a
value, raising no error); on a store holding one non-matching record and
one record whose key contains the marker - in either order - it returns
the matching record's nested accessToken and uid, ignoring the
non-matching record. -/
theorem readCreds_auth_user_marker (rows : List FbRow) (r1 r2 : FbRow)
    (h0 : ∀ r ∈ rows, strIncludes r.fbase_key "firebase:authUser" = false)
    (h1 : strIncludes r1.fbase_key "firebase:authUser" = false)
    (h2 : strIncludes r2.fbase_key "firebase:authUser" = true) :
    readCreds rows = { token := "", uid := "" } ∧
    readCreds [r1, r2] =
      { token := r2.value.stsTokenManager.accessToken, uid := r2.value.uid } ∧
    readCreds [r2, r1] =
      { token := r2.value.stsTokenManager.accessToken, uid := r2.value.uid } := by
  refine ⟨?_, ?_, ?_⟩
  · have hfil : rows.filter (fun obj => strIncludes obj.fbase_key "firebase:authUser") = [] := by
      rw [List.filter_eq_nil_iff]
      intro a ha
      simp [h0 a ha]
    unfold readCreds
    rw [hfil]
  · unfold readCreds
    simp [List.filter_cons, h1, h2]
  · unfold readCreds
    simp [List.filter_cons, h1, h2]

/-- C2 witness: a concrete matching and non-matching pair of records. -/
theorem readCreds_auth_user_marker_witness :
    strIncludes "other" "firebase:authUser" = false ∧
    strIncludes "firebase:authUser:key:[DEFAULT]" "firebase:authUser" = true ∧
    readCreds [{ fbase_key := "other", value := { uid := "u1", stsTokenManager := { accessToken := "t1" } } },
               { fbase_key := "firebase:authUser:key:[DEFAULT]",
                 value := { uid := "u2", stsTokenManager := { accessToken := "t2" } } }] =
      { token := "t2", uid := "u2" } :=
  ⟨by decide, by decide,
   (readCreds_auth_user_marker []
      { fbase_key := "other", value := { uid := "u1", stsTokenManager := { accessToken := "t1" } } }
      { fbase_key := "firebase:authUser:key:[DEFAULT]",
        value := { uid := "u2", stsTokenManager := { accessToken := "t2" } } }
      (by intro r hr; cases hr) (by decide) (by decide)).2.1⟩

/-- C3: getProvider returns a distinguishable provider instance for each
of google, facebook and github, getCredential returns the corresponding
credential, and for every other string both functions reject the
enclosing call with the unknown-provider error. -/
theorem getProvider_getCredential_closed_enum (s t : String)
    (hg : s ≠ "google") (hf : s ≠ "facebook") (hh : s ≠ "github") :
    getProvider "google" = Except.ok AuthProviderInst.google ∧
    getProvider "facebook" = Except.ok AuthProviderInst.facebook ∧
    getProvider "github" = Except.ok AuthProviderInst.github ∧
    (AuthProviderInst.google ≠ AuthProviderInst.facebook ∧
     AuthProviderInst.google ≠ AuthProviderInst.github ∧
     AuthProviderInst.facebook ≠ AuthProviderInst.github) ∧
    getCredential "google" t =
      Except.ok { providerOf := AuthProviderInst.google, accessToken := t } ∧
    getCredential "facebook" t =
      Except.ok { providerOf := AuthProviderInst.facebook, accessToken := t } ∧
    getCredential "github" t =
      Except.ok { providerOf := AuthProviderInst.github, accessToken := t } ∧
    getProvider s = Except.error ("Unknown provider " ++ s) ∧
    getCredential s t = Except.error ("Unknown provider " ++ s) := by
  refine ⟨rfl, rfl, rfl, ⟨by simp, by simp, by simp⟩, rfl, rfl, rfl, ?_, ?_⟩
  · unfold getProvider
    split <;> simp_all
  · unfold getCredential
    split <;> simp_all

/-- C3 witness: the fourth string value twitter is rejected. -/
theorem getProvider_getCredential_closed_enum_witness :
    ("twitter" : String) ≠ "google" ∧ ("twitter" : String) ≠ "facebook" ∧
    ("twitter" : String) ≠ "github" ∧
    getProvider "twitter" = Except.error ("Unknown provider " ++ "twitter") ∧
    getCredential "twitter" "tok" = Except.error ("Unknown provider " ++ "twitter") :=
  ⟨by decide, by decide, by decide,
   (getProvider_getCredential_closed_enum "twitter" "tok"
      (by decide) (by decide) (by decide)).2.2.2.2.2.2.2.1,
   (getProvider_getCredential_closed_enum "twitter" "tok"
      (by decide) (by decide) (by decide)).2.2.2.2.2.2.2.2⟩

/-- C6: analyticsLogger never propagates an error to its caller, and
outside production mode it performs zero calls into the analytics module
and zero console writes, for every outcome of the analytics load and
every input. -/
theorem analyticsLogger_best_effort (nodeEnv : String) (outcome : AnalyticsOutcome)
    (logType : String) :
    (analyticsLogger nodeEnv outcome logType).thrownToCaller = none ∧
    ((analyticsLogger nodeEnv outcome logType).analyticsCalls = 0 ∧
       (analyticsLogger nodeEnv outcome logType).consoleLogs = 0 ∨
     nodeEnv = "production") := by
  by_cases h : nodeEnv = "production"
  · subst h
    unfold analyticsLogger
    cases outcome <;> simp
  · unfold analyticsLogger
    simp [h]

/-- C10: getUserToken returns the user store's cached token in both
branches; the fresh id token is requested exactly when the store reports
the user authenticated and a current user exists, and is discarded. -/
theorem getUserToken_returns_cached_token (userStore : UserStoreState)
    (currentUserToken : Option String) :
    (getUserToken userStore currentUserToken).result = userStore.userToken ∧
    (getUserToken userStore currentUserToken).fetchedIdToken =
      (userStore.authenticatedState && currentUserToken.isSome) := by
  unfold getUserToken
  cases h : userStore.authenticatedState <;> simp

/-- C4 counterexample: calling makeAnalyticsActive twice before any
consumer call leaves two analytics dynamic-import invocations in the
run, because the second emit re-fires the persistent resolveAnalytics
listener; the claim that the second activation triggers no additional
module import is false for makeAnalyticsActive. -/
theorem makeAnalyticsActive_second_activation_reimports :
    (runActs [LoaderAct.makeAnalyticsActiveA, LoaderAct.makeAnalyticsActiveA,
        LoaderAct.tick, LoaderAct.tick, LoaderAct.tick, LoaderAct.tick,
        LoaderAct.tick, LoaderAct.tick]).analyticsImportCount = 2 ∧
    (runActs [LoaderAct.makeAnalyticsActiveA, LoaderAct.makeAnalyticsActiveA,
        LoaderAct.tick, LoaderAct.tick, LoaderAct.tick, LoaderAct.tick,
        LoaderAct.tick, LoaderAct.tick]).analyticsListeners = 1 := by
  exact ⟨rfl, rfl⟩

/-- C4 amended: calling makeFirebaseActive twice before any consumer
call performs exactly one app-module import (the once-only listener is
consumed by the first emit); calling makeAnalyticsActive twice performs
two analytics dynamic-import invocations (the persistent listener
re-runs on the second emit), while the analyticsModule promise itself is
created once and resolves once. -/
theorem activation_import_memoization_amended :
    (runActs [LoaderAct.makeFirebaseActiveA, LoaderAct.makeFirebaseActiveA,
        LoaderAct.tick, LoaderAct.tick]).appImportCount = 1 ∧
    (runActs [LoaderAct.makeFirebaseActiveA, LoaderAct.makeFirebaseActiveA,
        LoaderAct.tick, LoaderAct.tick]).appResolved = true ∧
    (runActs [LoaderAct.makeAnalyticsActiveA, LoaderAct.makeAnalyticsActiveA,
        LoaderAct.tick, LoaderAct.tick, LoaderAct.tick, LoaderAct.tick,
        LoaderAct.tick, LoaderAct.tick]).analyticsImportCount = 2 ∧
    (runActs [LoaderAct.makeAnalyticsActiveA, LoaderAct.makeAnalyticsActiveA,
        LoaderAct.tick, LoaderAct.tick, LoaderAct.tick, LoaderAct.tick,
        LoaderAct.tick, LoaderAct.tick]).analyticsModule = some 0 ∧
    (runActs [LoaderAct.makeAnalyticsActiveA, LoaderAct.makeAnalyticsActiveA,
        LoaderAct.tick, LoaderAct.tick, LoaderAct.tick, LoaderAct.tick,
        LoaderAct.tick, LoaderAct.tick]).analyticsResolved = true := by
  exact ⟨rfl, rfl, rfl, rfl, rfl⟩

/-- C5: in the canonical two-sequential-call scenario, getCurrentUser
subscribes exactly once across both calls, the first call resolves with
the first delivered auth-state value and flips userLoaded, the second
call resolves with the current user of the auth instance; and in any
state with userLoaded set, a getCurrentUser call neither increments the
subscription count nor leaves behind any task that would subscribe. -/
theorem getCurrentUser_single_subscription (u : Option Nat) (s : LoaderState) :
    ((runActs (gcuTrace u)).subCount = 1 ∧
     (runActs (gcuTrace u)).gcuResults = [(0, u), (1, u)] ∧
     (runActs (gcuTrace u)).userLoaded = true ∧
     (runActs (gcuTrace u)).currentUser = u) ∧
    (s.userLoaded = true →
      (doAct LoaderAct.getCurrentUserCall s).subCount = s.subCount ∧
      pendingSubConts (doAct LoaderAct.getCurrentUserCall s) = pendingSubConts s) := by
  constructor
  · exact ⟨rfl, rfl, rfl, rfl⟩
  · intro hu
    unfold doAct
    rw [if_pos hu]
    unfold startGetAuthModule
    cases hf : s.firebaseApp with
    | none =>
        exact ⟨rfl,
          pendingSubConts_enqueue _ (LoaderTask.gamAwaitApp (AuthCont.gcuDirect s.nextCall)) rfl⟩
    | some p =>
        unfold gamPhase2
        cases ha : s.authModule with
        | none =>
            exact ⟨rfl,
              (pendingSubConts_enqueue _
                (LoaderTask.awaitAuthModule (AuthCont.gcuDirect s.nextCall)) rfl).trans
              (pendingSubConts_enqueue _ LoaderTask.lfaAwaitApp rfl)⟩
        | some q =>
            exact ⟨rfl,
              pendingSubConts_enqueue _
                (LoaderTask.awaitAuthModule (AuthCont.gcuDirect s.nextCall)) rfl⟩

/-- C5 witness: the second call after the canonical scenario adds no
subscription. -/
theorem getCurrentUser_single_subscription_witness :
    (runActs (gcuTrace (some 5))).userLoaded = true ∧
    (doAct LoaderAct.getCurrentUserCall (runActs (gcuTrace (some 5)))).subCount =
      (runActs (gcuTrace (some 5))).subCount :=
  ⟨rfl,
   ((getCurrentUser_single_subscription (some 5) (runActs (gcuTrace (some 5)))).2 rfl).1⟩

/-- C7 counterexample: activating analytics while firebase was never
activated starts the analytics import although the firebaseApp promise
is still unset and unresolved - the await on the null slot is vacuous,
so the analytics import does not wait for the app promise. -/
theorem analytics_import_with_app_unset :
    (runActs [LoaderAct.makeAnalyticsActiveA, LoaderAct.tick,
        LoaderAct.tick]).analyticsImportCount = 1 ∧
    (runActs [LoaderAct.makeAnalyticsActiveA, LoaderAct.tick,
        LoaderAct.tick]).appResolved = false ∧
    (runActs [LoaderAct.makeAnalyticsActiveA, LoaderAct.tick,
        LoaderAct.tick]).firebaseApp = none := by
  exact ⟨rfl, rfl, rfl⟩

/-- C7 amended: in every execution in which no analytics handler run
observed the firebaseApp slot unset (so every analytics await actually
gated on the app promise), an analytics import can only have started
once the app promise resolved. -/
theorem analytics_import_waits_for_existing_app (acts : List LoaderAct)
    (hghost : (runActs acts).sawNullAppAwait = false)
    (himp : (runActs acts).analyticsImportCount ≠ 0) :
    (runActs acts).appResolved = true := by
  rcases c7inv_runActs acts with hg | ⟨_, hc⟩
  · rw [hg] at hghost
    simp at hghost
  · exact hc.resolve_left himp

/-- C7 amended witness: firebase activated first, then analytics. -/
theorem analytics_import_waits_for_existing_app_witness :
    (runActs [LoaderAct.makeFirebaseActiveA, LoaderAct.tick, LoaderAct.tick,
        LoaderAct.makeAnalyticsActiveA, LoaderAct.tick, LoaderAct.tick]).sawNullAppAwait = false ∧
    (runActs [LoaderAct.makeFirebaseActiveA, LoaderAct.tick, LoaderAct.tick,
        LoaderAct.makeAnalyticsActiveA, LoaderAct.tick, LoaderAct.tick]).analyticsImportCount ≠ 0 ∧
    (runActs [LoaderAct.makeFirebaseActiveA, LoaderAct.tick, LoaderAct.tick,
        LoaderAct.makeAnalyticsActiveA, LoaderAct.tick, LoaderAct.tick]).appResolved = true :=
  ⟨rfl, by decide,
   analytics_import_waits_for_existing_app
     [LoaderAct.makeFirebaseActiveA, LoaderAct.tick, LoaderAct.tick,
      LoaderAct.makeAnalyticsActiveA, LoaderAct.tick, LoaderAct.tick] rfl (by decide)⟩

/-- C8 counterexample: a getAuthModule call issued before any activation
creates the firebaseApp promise and registers the once-only listener but
never fires the activation signal: scheduling is a fixpoint, the
app import never begins and the call never completes, refuting the claim
that getAuthModule activates the app promise itself. -/
theorem getAuthModule_without_activation_stalls :
    (runActs [LoaderAct.getAuthModuleCall]).firebaseApp = some 0 ∧
    (runActs [LoaderAct.getAuthModuleCall]).appListeners = 1 ∧
    (runActs [LoaderAct.getAuthModuleCall]).appImportCount = 0 ∧
    (runActs [LoaderAct.getAuthModuleCall]).gamResults = [] ∧
    doAct LoaderAct.tick (runActs [LoaderAct.getAuthModuleCall]) =
      runActs [LoaderAct.getAuthModuleCall] := by
  exact ⟨rfl, rfl, rfl, rfl, rfl⟩

/-- C8 amended: getAuthModule ensures the app promise exists, creating
it if necessary but without firing the activation signal, so the call
suspends until makeFirebaseActive fires the signal; once activation has
occurred the call awaits the app promise, fills and awaits the
auth-module promise, returns the module handle, and a second call
returns the same memoized handle with no further import; a call stalled
before activation likewise completes once makeFirebaseActive runs. -/
theorem getAuthModule_creates_without_activating :
    (runActs [LoaderAct.getAuthModuleCall]).firebaseApp ≠ none ∧
    (runActs [LoaderAct.getAuthModuleCall]).appListeners = 1 ∧
    (runActs [LoaderAct.getAuthModuleCall]).appImportCount = 0 ∧
    (runActs [LoaderAct.makeFirebaseActiveA, LoaderAct.tick, LoaderAct.tick,
        LoaderAct.getAuthModuleCall, LoaderAct.tick, LoaderAct.tick, LoaderAct.tick,
        LoaderAct.tick, LoaderAct.getAuthModuleCall, LoaderAct.tick]).gamResults =
      [(0, 1), (1, 1)] ∧
    (runActs [LoaderAct.makeFirebaseActiveA, LoaderAct.tick, LoaderAct.tick,
        LoaderAct.getAuthModuleCall, LoaderAct.tick, LoaderAct.tick, LoaderAct.tick,
        LoaderAct.tick, LoaderAct.getAuthModuleCall, LoaderAct.tick]).authImportCount = 1 ∧
    (runActs [LoaderAct.makeFirebaseActiveA, LoaderAct.tick, LoaderAct.tick,
        LoaderAct.getAuthModuleCall, LoaderAct.tick, LoaderAct.tick, LoaderAct.tick,
        LoaderAct.tick, LoaderAct.getAuthModuleCall, LoaderAct.tick]).appImportCount = 1 ∧
    (runActs [LoaderAct.getAuthModuleCall, LoaderAct.makeFirebaseActiveA, LoaderAct.tick,
        LoaderAct.tick, LoaderAct.tick, LoaderAct.tick, LoaderAct.tick, LoaderAct.tick,
        LoaderAct.tick, LoaderAct.tick, LoaderAct.tick]).gamResults = [(0, 1)] := by
  exact ⟨by decide, rfl, rfl, rfl, rfl, rfl, rfl⟩

/-- Boolean check relating two loader states: every dataPromises slot
set in the first is still set with the same promise identity in the
second, and userLoaded has not flipped back to false. -/
def monoCheck (s t : LoaderState) : Bool :=
  (match s.firebaseApp with
   | some p => t.firebaseApp == some p
   | none => true) &&
  (match s.authModule with
   | some p => t.authModule == some p
   | none => true) &&
  (match s.analyticsModule with
   | some p => t.analyticsModule == some p
   | none => true) &&
  (!s.userLoaded || t.userLoaded)

/-- C9: over every sequence of operations from every state, each of the
three dataPromises slots, once set, keeps the same promise identity (it
is never reset to unset nor replaced), and userLoaded never flips back
from true to false. -/
theorem dataPromises_slots_userLoaded_monotone (s : LoaderState) (acts : List LoaderAct) :
    monoCheck s (runFrom s acts) = true := by
  obtain ⟨h1, h2, h3, h4, _, _⟩ := loaderMono_runFrom acts s
  unfold monoCheck
  simp only [Bool.and_eq_true]
  refine ⟨⟨⟨?_, ?_⟩, ?_⟩, ?_⟩
  · cases hf : s.firebaseApp with
    | none => rfl
    | some p => simp [h1 p hf]
  · cases ha : s.authModule with
    | none => rfl
    | some p => simp [h2 p ha]
  · cases han : s.analyticsModule with
    | none => rfl
    | some p => simp [h3 p han]
  · cases hu : s.userLoaded with
    | false => rfl
    | true => simp [h4 hu]
